import Mathlib

/-!
Verification development for the flex-dump header-conversion scripts.

The repository holds two near-duplicate Python scripts
(src/convert_headers_to_extracted.py, called script 1 below, and
src/unnamed/part_000, called script 2 below) that parse Objective-C style
method prototypes and synthesize runtime type-encoding strings.

This file gives a shallow embedding of both scripts.  All string processing
is implemented over List Char (Python str operations and the concrete
regular expressions of the source are hand-compiled to deterministic
character scanners; each scanner is driven by a fuel argument that is
always instantiated with the input length plus one, which is sufficient
because every step consumes at least one character).
-/

/-- Whitespace class of Python regular expressions and of str.strip. -/
def isPyWs (c : Char) : Bool :=
  c = ' ' || c = '\t' || c = '\n' || c = '\x0d' || c = '\x0b' || c = '\x0c'

/-- Word-character class of the regex escape for word characters (ASCII). -/
def isWordChar (c : Char) : Bool :=
  c.isAlphanum || c = '_'

/-- Python str.strip on a character list. -/
def pyStripL (l : List Char) : List Char :=
  ((l.dropWhile isPyWs).reverse.dropWhile isPyWs).reverse

/-- Python str.strip. -/
def pyStrip (s : String) : String :=
  String.mk (pyStripL s.data)

/-- Python str.lower (ASCII inputs). -/
def pyLower (s : String) : String :=
  String.mk (s.data.map Char.toLower)

/-- Python str.rstrip with a set of characters to remove from the right. -/
def rstripSet (s : String) (cs : List Char) : String :=
  String.mk ((s.data.reverse.dropWhile (fun c => cs.contains c)).reverse)

/-- Test whether a character occurs in a string (Python membership test). -/
def containsChar (s : String) (c : Char) : Bool :=
  s.data.any (fun x => x = c)

/-- Number of occurrences of a character (Python str.count for one char). -/
def countChar (s : String) (c : Char) : Nat :=
  (s.data.filter (fun x => x = c)).length

/-- Infix test on character lists (Python substring membership test). -/
def listHasInfix (pat : List Char) : List Char → Bool
  | [] => pat.isEmpty
  | c :: rest => pat.isPrefixOf (c :: rest) || listHasInfix pat rest

/-- Python substring membership test: subOccurs pat s is pat in s. -/
def subOccurs (pat s : String) : Bool :=
  listHasInfix pat.data s.data

/-- Python str.startswith. -/
def pyStartsWith (s pat : String) : Bool :=
  pat.data.isPrefixOf s.data

/-- Python str.endswith. -/
def pyEndsWith (s pat : String) : Bool :=
  pat.data.reverse.isPrefixOf s.data.reverse

/-- Python str.split on a single separator character. -/
def splitCharL (c : Char) : List Char → List (List Char)
  | [] => [[]]
  | x :: rest =>
    if x = c then [] :: splitCharL c rest
    else
      match splitCharL c rest with
      | h :: t => (x :: h) :: t
      | [] => [[x]]

/-- Python str.split on one character, returning strings. -/
def splitChar (s : String) (c : Char) : List String :=
  (splitCharL c s.data).map String.mk

/-- Worker for collapseWs; the flag records whether the previous character
was whitespace (so a whitespace run contributes a single space). -/
def collapseWsL : List Char → Bool → List Char
  | [], _ => []
  | c :: rest, prevWs =>
    if isPyWs c then
      if prevWs then collapseWsL rest true
      else ' ' :: collapseWsL rest true
    else c :: collapseWsL rest false

/-- Python re.sub of one-or-more whitespace by a single space. -/
def collapseWs (s : String) : String :=
  String.mk (collapseWsL s.data false)

/-- Worker for deleteOcc: Python str.replace of pat by the empty string,
scanning left to right over non-overlapping occurrences.  Fuel is the
input length plus one. -/
def deleteOccL (pat : List Char) : Nat → List Char → List Char
  | 0, l => l
  | _ + 1, [] => []
  | fuel + 1, c :: rest =>
    if pat.isPrefixOf (c :: rest) then deleteOccL pat fuel ((c :: rest).drop pat.length)
    else c :: deleteOccL pat fuel rest

/-- Python str.replace (pat, empty string).  An empty pattern is returned
unchanged; the source only ever deletes the nonempty patterns arg1..arg4. -/
def deleteOcc (s pat : String) : String :=
  if pat.data.isEmpty then s
  else String.mk (deleteOccL pat.data (s.data.length + 1) s.data)

/-- String join of a list of strings. -/
def sJoin (l : List String) : String :=
  String.mk (l.map String.data).flatten

/-- Special method signatures with known encodings (script 1, lines 13-45).
Association list in source order; looked up with List.lookup. -/
def specialMethodEncodings : List (String × String) :=
  [("dealloc", "v16@0:8"),
   ("release", "v16@0:8"),
   ("retain", "@16@0:8"),
   ("autorelease", "@16@0:8"),
   ("init", "@16@0:8"),
   ("new", "@16@0:8"),
   ("alloc", "@16@0:8"),
   ("isEqual:", "B24@0:8@16"),
   ("isLogFile:", "B24@0:8@16"),
   ("isInSet:", "B24@0:8@16"),
   ("hash", "Q16@0:8"),
   ("description", "@16@0:8"),
   ("debugDescription", "@16@0:8"),
   ("class", "#16@0:8"),
   ("superclass", "#16@0:8"),
   ("conformsToProtocol:", "B24@0:8^#16"),
   ("isKindOfClass:", "B24@0:8#16"),
   ("respondsToSelector:", "B24@0:8:16"),
   ("copyWithZone:", "@24@0:8^\x7b_NSZone=\x7d16"),
   ("mutableCopyWithZone:", "@24@0:8^\x7b_NSZone=\x7d16")]

/-- Struct type table (script 1, lines 87-100). -/
def structTypes : List (String × String) :=
  [("CGRect", "\x7bCGRect=\x7bCGPoint=dd\x7d\x7bCGSize=dd\x7d\x7d"),
   ("CGPoint", "\x7bCGPoint=dd\x7d"),
   ("CGSize", "\x7bCGSize=dd\x7d"),
   ("NSRange", "\x7b_NSRange=QQ\x7d"),
   ("UIEdgeInsets", "\x7bUIEdgeInsets=dddd\x7d"),
   ("CGAffineTransform", "\x7bCGAffineTransform=dddddd\x7d"),
   ("IMAAdPlaybackInfo", "^\x7b?=iiiiddddd\x7b?=iiiiiiiiiiiiii\x7d\x7d"),
   ("struct _NSZone *", "^\x7b_NSZone=\x7d"),
   ("_NSZone *", "^\x7b_NSZone=\x7d"),
   ("NSXMLParser *", "@"),
   ("Protocol *", "^#"),
   ("id<Protocol>", "@")]

/-- Basic type mapping (script 1, lines 107-134). -/
def typeMap : List (String × String) :=
  [("void", "v"),
   ("BOOL", "B"), ("bool", "B"), ("_Bool", "B"), ("Bool", "B"), ("bool_", "B"),
   ("instancetype", "@"),
   ("double", "d"),
   ("long long", "q"), ("long", "q"),
   ("unsigned long long", "Q"),
   ("unsigned int", "I"),
   ("int", "i"),
   ("float", "f"),
   ("id", "@"),
   ("NSString *", "@"),
   ("NSArray *", "@"),
   ("NSDictionary *", "@"),
   ("NSObject *", "@"),
   ("Class", "#"),
   ("SEL", ":"),
   ("char *", "*"),
   ("const char *", "r*"),
   ("void *", "^v"),
   ("IMP", "^?"),
   ("id *", "^@"),
   ("NSError *", "@"),
   ("NSError **", "^@"),
   ("CDUnknownBlockType", "@?"),
   ("dispatch_block_t", "@?"),
   ("void(^)(void)", "@?")]

/-- Pointer-heuristic type-prefix computation of script 1 (lines 137-168,
the type_prefix assignment): double-pointer spellings, single-pointer
spellings with the const qualifier and the object naming-convention
prefixes, and otherwise the basic type map with the object sigil as
default. -/
def typePfxOf (rt : String) : String :=
  if pyEndsWith rt "**" then
    let baseType := pyStrip (rstripSet rt ['*', ' '])
    if subOccurs "const" baseType then
      let baseType := pyStrip (deleteOcc baseType "const")
      if pyStartsWith baseType "NS" || pyStartsWith baseType "UI" then "r^@"
      else "r^^"
    else
      if pyStartsWith baseType "NS" || pyStartsWith baseType "UI" then "^@"
      else "^^"
  else if pyEndsWith rt "*" then
    let baseType := pyStrip (rstripSet rt ['*', ' '])
    if subOccurs "const" baseType then
      let baseType := pyStrip (deleteOcc baseType "const")
      if pyStartsWith baseType "NS" || pyStartsWith baseType "UI" then "r@"
      else if baseType = "char" then "r*"
      else "r^"
    else
      if pyStartsWith baseType "NS" || pyStartsWith baseType "UI" then "@"
      else "^"
  else (List.lookup rt typeMap).getD "@"

/-- Embedding of calculate_type_encoding of script 1 (lines 7-170).  The
unused params argument of the Python function is omitted (it is never read
in the body).  Branch order follows the source exactly: the _Bool rewrite,
the special-selector table, the BOOL-with-(id)-parameter early return, the
instancetype rewrite, frame-size computation from the colon count, the
block branch, the struct table, the pointer heuristics, and the basic type
map with the object sigil as default. -/
def calculate_type_encoding (return_type selector : String) : String :=
  let rt1 := if return_type = "_Bool" then "bool" else return_type
  match List.lookup selector specialMethodEncodings with
  | some enc => enc
  | none =>
    if ((pyStrip rt1 = "BOOL" || pyStrip rt1 = "_Bool") && containsChar selector ':') &&
        pyStrip (((splitChar selector ':').get? 1).getD "") = "(id)" then
      "B24@0:8@16"
    else
      let rt2 := if pyStrip rt1 = "instancetype" then "id" else rt1
      let total := 16 + 8 * countChar selector ':'
      let rt := pyStrip rt2
      if containsChar rt '^' || subOccurs "CDUnknownBlockType" rt then
        if subOccurs "(void (^)(_Bool))" rt || subOccurs "(void (^)(BOOL))" rt then
          "v32@0:8@?16@24"
        else if subOccurs "(void (^)(void))" rt then "v24@0:8@?16"
        else if subOccurs "(void (^)(id))" rt then "v32@0:8@?16@24"
        else if subOccurs "CDUnknownBlockType" rt then "v32@0:8@?16@24"
        else if pyStartsWith rt "_Bool (^)" || pyStartsWith rt "BOOL (^)" then
          "B32@0:8@?16@24"
        else "@32@0:8@?16@24"
      else
        match List.lookup rt structTypes with
        | some typePfx => typePfx ++ Nat.repr total ++ "@0:8"
        | none => typePfxOf rt ++ Nat.repr total ++ "@0:8"

/-- Special method table of script 2 (src/unnamed/part_000, lines 14-46);
transcribed independently for the equivalence claim. -/
def specialMethodEncodings2 : List (String × String) :=
  [("dealloc", "v16@0:8"),
   ("release", "v16@0:8"),
   ("retain", "@16@0:8"),
   ("autorelease", "@16@0:8"),
   ("init", "@16@0:8"),
   ("new", "@16@0:8"),
   ("alloc", "@16@0:8"),
   ("isEqual:", "B24@0:8@16"),
   ("isLogFile:", "B24@0:8@16"),
   ("isInSet:", "B24@0:8@16"),
   ("hash", "Q16@0:8"),
   ("description", "@16@0:8"),
   ("debugDescription", "@16@0:8"),
   ("class", "#16@0:8"),
   ("superclass", "#16@0:8"),
   ("conformsToProtocol:", "B24@0:8^#16"),
   ("isKindOfClass:", "B24@0:8#16"),
   ("respondsToSelector:", "B24@0:8:16"),
   ("copyWithZone:", "@24@0:8^\x7b_NSZone=\x7d16"),
   ("mutableCopyWithZone:", "@24@0:8^\x7b_NSZone=\x7d16")]

/-- Struct type table of script 2 (lines 88-101). -/
def structTypes2 : List (String × String) :=
  [("CGRect", "\x7bCGRect=\x7bCGPoint=dd\x7d\x7bCGSize=dd\x7d\x7d"),
   ("CGPoint", "\x7bCGPoint=dd\x7d"),
   ("CGSize", "\x7bCGSize=dd\x7d"),
   ("NSRange", "\x7b_NSRange=QQ\x7d"),
   ("UIEdgeInsets", "\x7bUIEdgeInsets=dddd\x7d"),
   ("CGAffineTransform", "\x7bCGAffineTransform=dddddd\x7d"),
   ("IMAAdPlaybackInfo", "^\x7b?=iiiiddddd\x7b?=iiiiiiiiiiiiii\x7d\x7d"),
   ("struct _NSZone *", "^\x7b_NSZone=\x7d"),
   ("_NSZone *", "^\x7b_NSZone=\x7d"),
   ("NSXMLParser *", "@"),
   ("Protocol *", "^#"),
   ("id<Protocol>", "@")]

/-- Basic type mapping of script 2 (lines 108-135). -/
def typeMap2 : List (String × String) :=
  [("void", "v"),
   ("BOOL", "B"), ("bool", "B"), ("_Bool", "B"), ("Bool", "B"), ("bool_", "B"),
   ("instancetype", "@"),
   ("double", "d"),
   ("long long", "q"), ("long", "q"),
   ("unsigned long long", "Q"),
   ("unsigned int", "I"),
   ("int", "i"),
   ("float", "f"),
   ("id", "@"),
   ("NSString *", "@"),
   ("NSArray *", "@"),
   ("NSDictionary *", "@"),
   ("NSObject *", "@"),
   ("Class", "#"),
   ("SEL", ":"),
   ("char *", "*"),
   ("const char *", "r*"),
   ("void *", "^v"),
   ("IMP", "^?"),
   ("id *", "^@"),
   ("NSError *", "@"),
   ("NSError **", "^@"),
   ("CDUnknownBlockType", "@?"),
   ("dispatch_block_t", "@?"),
   ("void(^)(void)", "@?")]

/-- Pointer-heuristic type-prefix computation of script 2 (lines 138-169). -/
def typePfxOf2 (rt : String) : String :=
  if pyEndsWith rt "**" then
    let baseType := pyStrip (rstripSet rt ['*', ' '])
    if subOccurs "const" baseType then
      let baseType := pyStrip (deleteOcc baseType "const")
      if pyStartsWith baseType "NS" || pyStartsWith baseType "UI" then "r^@"
      else "r^^"
    else
      if pyStartsWith baseType "NS" || pyStartsWith baseType "UI" then "^@"
      else "^^"
  else if pyEndsWith rt "*" then
    let baseType := pyStrip (rstripSet rt ['*', ' '])
    if subOccurs "const" baseType then
      let baseType := pyStrip (deleteOcc baseType "const")
      if pyStartsWith baseType "NS" || pyStartsWith baseType "UI" then "r@"
      else if baseType = "char" then "r*"
      else "r^"
    else
      if pyStartsWith baseType "NS" || pyStartsWith baseType "UI" then "@"
      else "^"
  else (List.lookup rt typeMap2).getD "@"

/-- Embedding of calculate_type_encoding of script 2 (src/unnamed/part_000,
lines 8-171), transcribed independently from that file. -/
def calculate_type_encoding2 (return_type selector : String) : String :=
  let rt1 := if return_type = "_Bool" then "bool" else return_type
  match List.lookup selector specialMethodEncodings2 with
  | some enc => enc
  | none =>
    if ((pyStrip rt1 = "BOOL" || pyStrip rt1 = "_Bool") && containsChar selector ':') &&
        pyStrip (((splitChar selector ':').get? 1).getD "") = "(id)" then
      "B24@0:8@16"
    else
      let rt2 := if pyStrip rt1 = "instancetype" then "id" else rt1
      let total := 16 + 8 * countChar selector ':'
      let rt := pyStrip rt2
      if containsChar rt '^' || subOccurs "CDUnknownBlockType" rt then
        if subOccurs "(void (^)(_Bool))" rt || subOccurs "(void (^)(BOOL))" rt then
          "v32@0:8@?16@24"
        else if subOccurs "(void (^)(void))" rt then "v24@0:8@?16"
        else if subOccurs "(void (^)(id))" rt then "v32@0:8@?16@24"
        else if subOccurs "CDUnknownBlockType" rt then "v32@0:8@?16@24"
        else if pyStartsWith rt "_Bool (^)" || pyStartsWith rt "BOOL (^)" then
          "B32@0:8@?16@24"
        else "@32@0:8@?16@24"
      else
        match List.lookup rt structTypes2 with
        | some typePfx => typePfx ++ Nat.repr total ++ "@0:8"
        | none => typePfxOf2 rt ++ Nat.repr total ++ "@0:8"

/-- Method record produced by parse_method_declaration: the five fields the
scripts place into the output document per method. -/
structure MethodInfo where
  pfx : String
  selector : String
  typeEncoding : String
  displayName : String
  className : String
deriving DecidableEq

/-- Character class of the return-type group of the script 1 prototype
regex: word characters, whitespace, star, angle brackets, curly braces and
square brackets. -/
def isRetChar (c : Char) : Bool :=
  isWordChar c || isPyWs c || c = '*' || c = '<' || c = '>' ||
    c = '\x7b' || c = '\x7d' || c = '[' || c = ']'

/-- Anchored match of the script 1 prototype regex (line 238): a sign, then
optional whitespace, a parenthesized return-type group over isRetChar, then
optional whitespace and a nonempty selector run of non-semicolon
characters.  Applied to the stripped line, as in the source.  The final
alternative mirrors regex backtracking: when only whitespace stands before
the terminator, the whitespace quantifier gives one character back and the
selector capture is that single whitespace character. -/
def protoMatch (line : String) : Option (String × String × String) :=
  match pyStripL line.data with
  | [] => none
  | c :: rest =>
    if c = '+' || c = '-' then
      match rest.dropWhile isPyWs with
      | '(' :: r2 =>
        let ret := r2.takeWhile isRetChar
        let r3 := r2.dropWhile isRetChar
        if ret.isEmpty then none
        else
          match r3 with
          | ')' :: r4 =>
            let r5 := r4.dropWhile isPyWs
            let sel := r5.takeWhile (fun x => x ≠ ';')
            if !sel.isEmpty then some (String.mk [c], String.mk ret, String.mk sel)
            else
              match (r4.takeWhile isPyWs).reverse with
              | w :: _ => some (String.mk [c], String.mk ret, String.mk [w])
              | [] => none
          | _ => none
      | _ => none
    else none

/-- One attempted match, at the current position, of the parameter-section
delimiter regex used by the script 1 splitter (line 270): a parenthesized
nonempty run of non-close-paren characters, optional whitespace, then a
nonempty word run.  Returns the remainder after the match. -/
def matchSplitPat (cs : List Char) : Option (List Char) :=
  match cs with
  | '(' :: rest =>
    let run := rest.takeWhile (fun x => x ≠ ')')
    let r2 := rest.dropWhile (fun x => x ≠ ')')
    if run.isEmpty then none
    else
      match r2 with
      | ')' :: r3 =>
        let r4 := r3.dropWhile isPyWs
        let w := r4.takeWhile isWordChar
        if w.isEmpty then none else some (r4.drop w.length)
      | _ => none
  | _ => none

/-- Worker for the script 1 re.split over the delimiter pattern: scan left
to right, cutting a segment at each match.  Fuel is input length plus one;
each step consumes at least one character. -/
def reSplitL : Nat → List Char → List Char → List String
  | 0, cs, acc => [String.mk (acc.reverse ++ cs)]
  | _ + 1, [], acc => [String.mk acc.reverse]
  | fuel + 1, c :: rest, acc =>
    match matchSplitPat (c :: rest) with
    | some rem => String.mk acc.reverse :: reSplitL fuel rem []
    | none => reSplitL fuel rest (c :: acc)

/-- Script 1 re.split of the selector on parenthesized-type-plus-name
delimiters. -/
def reSplitParams (s : String) : List String :=
  reSplitL (s.data.length + 1) s.data []

/-- Worker for the script 1 re.findall of parenthesized runs (line 271):
each match captures a nonempty run of non-close-paren characters between
parentheses; scanning resumes after the closing parenthesis. -/
def findParenRunsL : Nat → List Char → List String
  | 0, _ => []
  | _ + 1, [] => []
  | fuel + 1, c :: rest =>
    if c = '(' then
      let run := rest.takeWhile (fun x => x ≠ ')')
      let r2 := rest.dropWhile (fun x => x ≠ ')')
      match r2 with
      | ')' :: r3 =>
        if run.isEmpty then findParenRunsL fuel rest
        else String.mk run :: findParenRunsL fuel r3
      | _ => findParenRunsL fuel rest
    else findParenRunsL fuel rest

/-- Script 1 re.findall of parenthesized type spellings in a selector. -/
def findParenRuns (s : String) : List String :=
  findParenRunsL (s.data.length + 1) s.data

/-- Method parts of a parameterized selector (script 1, line 273): the
split segments, filtered to those nonempty after strip, each stripped and
with trailing colons removed. -/
def methodPartsOf (sel : String) : List String :=
  ((reSplitParams sel).filter (fun p => !(pyStrip p).data.isEmpty)).map
    (fun p => rstripSet (pyStrip p) [':'])

/-- Boolean spellings list used by both scripts (the source list repeats
the lowercase spelling; kept verbatim). -/
def boolSpellings : List String := ["_bool", "bool", "bool_", "bool"]

/-- Parameter entry of the script 1 encoding loop (lines 279-296): the
i-th captured type (defaulting to id when fewer types than parts were
captured), stripped, classified by its lowercase spelling, paired with the
stack offset 16 + 8 i. -/
def paramEntry (tys : List String) (i : Nat) : String × Nat :=
  let pt := pyStrip ((tys.get? i).getD "id")
  if boolSpellings.contains (pyLower pt) then ("B", 16 + i * 8)
  else if (["int", "nsinteger"] : List String).contains (pyLower pt) then ("i", 16 + i * 8)
  else if (["long", "long long", "nsuinteger"] : List String).contains (pyLower pt) then
    ("q", 16 + i * 8)
  else if (["float", "cgfloat"] : List String).contains (pyLower pt) then ("f", 16 + i * 8)
  else if pyLower pt = "double" then ("d", 16 + i * 8)
  else ("@", 16 + i * 8)

/-- Parameter type as displayed (script 1: boolean spellings display as
bool, other spellings verbatim). -/
def displayedParamType (tys : List String) (i : Nat) : String :=
  let pt := pyStrip ((tys.get? i).getD "id")
  if boolSpellings.contains (pyLower pt) then "bool" else pt

/-- Parameter code/offset list of a parameterized selector (script 1). -/
def paramTokens (sel : String) : List (String × Nat) :=
  (methodPartsOf sel).mapIdx (fun i _ => paramEntry (findParenRuns sel) i)

/-- Display fragments of a parameterized selector (script 1, line 298). -/
def displayPartsOf (sel : String) : List String :=
  (methodPartsOf sel).mapIdx
    (fun i part => part ++ ":(" ++ displayedParamType (findParenRuns sel) i ++ ")")

/-- Display form of the return type (script 1, lines 257-261). -/
def displayTypeOf (rt : String) : String :=
  if boolSpellings.contains (pyLower rt) then "bool"
  else if subOccurs "Protocol" rt then "Protocol *"
  else rt

/-- Return code chain of the script 1 parameterized branch (lines
303-308). -/
def returnCodeOf (rt displayType : String) : String :=
  if rt = "void" then "v"
  else if displayType = "bool" then "B"
  else if rt = "int" then "i"
  else if rt = "long" then "q"
  else if rt = "float" then "f"
  else if rt = "double" then "d"
  else "@"

/-- Body of script 1 parse_method_declaration after the prototype regex
has matched (lines 243-329): the .cxx_destruct special case, the display
type, then either the no-parameter branch (which delegates the encoding to
calculate_type_encoding) or the parameterized branch (which rebuilds the
selector from the split parts and assembles the encoding inline). -/
def parseCore (pfx ret selRaw cls : String) : MethodInfo :=
  let rt := pyStrip ret
  if subOccurs ".cxx_destruct" selRaw then
    { pfx := pfx, selector := ".cxx_destruct", typeEncoding := "v16@0:8",
      displayName := pfx ++ "(void) .cxx_destruct", className := cls }
  else
    let displayType := displayTypeOf rt
    let sel := pyStrip selRaw
    if !(containsChar sel ':') then
      { pfx := pfx, selector := sel,
        typeEncoding := calculate_type_encoding rt sel,
        displayName := pfx ++ "(" ++ displayType ++ ") " ++ sel, className := cls }
    else
      let mp := methodPartsOf sel
      let cleanSel := String.intercalate ":" mp ++ ":"
      let pts := paramTokens sel
      let total := 16 + 8 * pts.length
      let enc := returnCodeOf rt displayType ++ Nat.repr total ++ "@0:8" ++
        sJoin (pts.map (fun p => p.1 ++ Nat.repr p.2))
      { pfx := pfx, selector := cleanSel, typeEncoding := enc,
        displayName :=
          pfx ++ "(" ++ displayType ++ ") " ++ String.intercalate " " (displayPartsOf sel),
        className := cls }

/-- Embedding of script 1 parse_method_declaration (lines 236-329). -/
def parse_method_declaration (line cls : String) : Option MethodInfo :=
  (protoMatch line).map (fun t => parseCore t.1 t.2.1 t.2.2 cls)

/-- Character class of the return-type group of the script 2 prototype
regex (line 239): word characters, whitespace, star, angle brackets. -/
def isRet2Char (c : Char) : Bool :=
  isWordChar c || isPyWs c || c = '*' || c = '<' || c = '>'

/-- Optional parenthesized-run group of the script 2 selector regex: when
the current position opens a parenthesis enclosing a nonempty run of
non-close-paren characters, consume it; otherwise consume nothing. -/
def parenOpt (cs : List Char) : List Char × List Char :=
  match cs with
  | '(' :: rest =>
    let run := rest.takeWhile (fun x => x ≠ ')')
    let r2 := rest.dropWhile (fun x => x ≠ ')')
    (match r2 with
     | ')' :: r3 => if run.isEmpty then ([], cs) else ('(' :: (run ++ [')']), r3)
     | _ => ([], cs))
  | _ => ([], cs)

/-- One iteration of the starred selector group of the script 2 prototype
regex: a nonempty run of non-whitespace non-colon characters, then
optional whitespace, an optional parenthesized run, optional whitespace,
an optional colon, optional whitespace, an optional parenthesized run and
optional whitespace.  Greedy matching is deterministic here because every
quantifier is forced by the character classes. -/
def gIter (cs : List Char) : Option (List Char × List Char) :=
  let w := cs.takeWhile (fun c => !(isPyWs c) && c ≠ ':')
  if w.isEmpty then none
  else
    let r1 := cs.dropWhile (fun c => !(isPyWs c) && c ≠ ':')
    let s1 := r1.takeWhile isPyWs
    let r2 := r1.dropWhile isPyWs
    let pr1 := parenOpt r2
    let s2 := pr1.2.takeWhile isPyWs
    let r4 := pr1.2.dropWhile isPyWs
    let cr := (match r4 with
      | ':' :: t => (([':'] : List Char), t)
      | _ => (([] : List Char), r4))
    let s3 := cr.2.takeWhile isPyWs
    let r6 := cr.2.dropWhile isPyWs
    let pr2 := parenOpt r6
    let s4 := pr2.2.takeWhile isPyWs
    let r8 := pr2.2.dropWhile isPyWs
    some (w ++ s1 ++ pr1.1 ++ s2 ++ cr.1 ++ s3 ++ pr2.1 ++ s4, r8)

/-- Kleene star over gIter, collecting the consumed text (the capture of
the selector group).  Fuel is input length plus one; every iteration
consumes at least one character. -/
def gStar : Nat → List Char → List Char
  | 0, _ => []
  | fuel + 1, cs =>
    match gIter cs with
    | none => []
    | some (con, rest) => con ++ gStar fuel rest

/-- Anchored match of the script 2 prototype regex (line 239) on the raw
line (script 2 does not strip the line before matching). -/
def proto2Match (line : String) : Option (String × String × String) :=
  match line.data with
  | [] => none
  | c :: rest =>
    if c = '+' || c = '-' then
      match rest.dropWhile isPyWs with
      | '(' :: r2 =>
        let ret := r2.takeWhile isRet2Char
        let r3 := r2.dropWhile isRet2Char
        if ret.isEmpty then none
        else
          match r3 with
          | ')' :: r4 =>
            let r5 := r4.dropWhile isPyWs
            some (String.mk [c], String.mk ret, String.mk (gStar (r5.length + 1) r5))
          | _ => none
      | _ => none
    else none

/-- One attempted match of the script 2 parameter-section regex (line
262): an optional word run, optional whitespace, a colon, optional
whitespace, and a parenthesized nonempty run of non-close-paren
characters.  Returns the captured (name, type) and the remainder. -/
def secMatchAt (cs : List Char) : Option ((String × String) × List Char) :=
  let w := cs.takeWhile isWordChar
  let r0 := cs.dropWhile isWordChar
  let rest := if w.isEmpty then cs else r0
  match rest.dropWhile isPyWs with
  | ':' :: r3 =>
    (match r3.dropWhile isPyWs with
     | '(' :: r5 =>
       let run := r5.takeWhile (fun x => x ≠ ')')
       let r6 := r5.dropWhile (fun x => x ≠ ')')
       (match r6 with
        | ')' :: r7 =>
          if run.isEmpty then none
          else some ((String.mk (if w.isEmpty then [] else w), String.mk run), r7)
        | _ => none)
     | _ => none)
  | _ => none

/-- Worker for the script 2 re.finditer over parameter sections: scan left
to right, emitting each non-overlapping match.  Fuel is input length plus
one. -/
def paramSectionsL : Nat → List Char → List (String × String)
  | 0, _ => []
  | _ + 1, [] => []
  | fuel + 1, c :: rest =>
    match secMatchAt (c :: rest) with
    | some pr => pr.1 :: paramSectionsL fuel pr.2
    | none => paramSectionsL fuel rest

/-- Script 2 re.finditer over parameter sections of the selector text. -/
def paramSections (s : String) : List (String × String) :=
  paramSectionsL (s.data.length + 1) s.data

/-- Embedding of script 2 parse_method_declaration (src/unnamed/part_000,
lines 237-302): prototype regex, then the _Bool rewrite of the return
type, then either the no-parameter branch or the parameter-section loop.
In the parameterized branch the selector is rebuilt as the first split
segment followed by every matched section label, and the encoding is
delegated to calculate_type_encoding2 on that rebuilt selector. -/
def parse_method_declaration2 (line cls : String) : Option MethodInfo :=
  match proto2Match line with
  | none => none
  | some (pfx, ret0, selWT) =>
    let rt0 := pyStrip ret0
    let rt := if rt0 = "_Bool" then "bool" else rt0
    if !(containsChar selWT ':') then
      let sel := pyStrip selWT
      some { pfx := pfx, selector := sel,
             typeEncoding := calculate_type_encoding2 rt sel,
             displayName := pfx ++ "(" ++ rt ++ ") " ++ sel, className := cls }
    else
      let methodName := pyStrip (((splitChar selWT ':').get? 0).getD "")
      let cleaned := (paramSections selWT).map (fun pr =>
        let t1 := pyStrip pr.2
        let t :=
          if t1 = "_Bool" then "bool"
          else if (["id", "id)", "instancetype"] : List String).contains (pyLower t1) then "id"
          else t1
        (pr.1, t))
      let selectorParts := cleaned.map (fun pr => if pr.1 = "" then ":" else pr.1 ++ ":")
      let dps := cleaned.map (fun pr =>
        if pr.1 = "" then ":(" ++ pr.2 ++ ")" else pr.1 ++ ":(" ++ pr.2 ++ ")")
      let sel :=
        if methodName = "" then sJoin selectorParts
        else methodName ++ ":" ++ sJoin selectorParts
      let disp :=
        if methodName = "" then pfx ++ "(" ++ rt ++ ") " ++ String.intercalate " " dps
        else pfx ++ "(" ++ rt ++ ") " ++ methodName ++ ":" ++ String.intercalate " " dps
      some { pfx := pfx, selector := sel,
             typeEncoding := calculate_type_encoding2 rt sel,
             displayName := disp, className := cls }

/-- Raw prototype match of the header-scanning regex of
process_header_file (both scripts, line 209/210): sign, return type text
and raw selector text. -/
structure RawMatch where
  pfx : String
  ret : String
  sel : String
deriving DecidableEq

/-- Dedup key of process_header_file (line 221): the sign concatenated
with the stripped, whitespace-collapsed raw selector text. -/
def matchKey (m : RawMatch) : String :=
  m.pfx ++ pyStrip (collapseWs (pyStrip m.sel))

/-- Method-collection loop of script 1 process_header_file (lines
212-229): per raw match, collapse whitespace in the selector, skip when
the (sign ++ raw selector) key was already seen, otherwise record the key,
re-assemble the prototype line, parse it, and keep the record (with the
owning type name) when parsing succeeds. -/
def extractGo (cls : String) (seen : List String) : List RawMatch → List MethodInfo
  | [] => []
  | m :: rest =>
    if seen.contains (matchKey m) then extractGo cls seen rest
    else
      let selC := collapseWs (pyStrip m.sel)
      match parse_method_declaration (m.pfx ++ "(" ++ m.ret ++ ") " ++ selC) cls with
      | some mi => { mi with className := cls } :: extractGo cls (matchKey m :: seen) rest
      | none => extractGo cls (matchKey m :: seen) rest

/-- Seen-key state after the loop has processed a list of matches. -/
def seenAfter (seen : List String) : List RawMatch → List String
  | [] => seen
  | m :: rest =>
    if seen.contains (matchKey m) then seenAfter seen rest
    else seenAfter (matchKey m :: seen) rest

/-- Governing declaration found in a unit by the three search regexes of
process_header_file (lines 190-192): a class with superclass, a protocol,
a category, or none.  The regex scan itself operates on the preprocessed
unit text and is abstracted here as this datum of the unit. -/
inductive DeclFound where
  | classWithSuper (name sup : String) : DeclFound
  | protocolDecl (name : String) : DeclFound
  | categoryDecl (name : String) : DeclFound
  | noneFound : DeclFound
deriving DecidableEq

/-- Read outcome of one unit: the open/read raised (the except branch of
process_header_file), or the unit text was read, summarized by the
governing declaration found and the raw prototype matches.  The comment
stripping and prototype-regex scan over the raw text are abstracted as the
match list of the unit. -/
inductive HeaderRead where
  | readFail (msg : String) : HeaderRead
  | readOk (decl : DeclFound) (ms : List RawMatch) : HeaderRead
deriving DecidableEq

/-- One unit: its path and its read outcome. -/
structure HeaderFile where
  path : String
  read : HeaderRead
deriving DecidableEq

/-- Owner name and superclass chosen from the found declaration (lines
194-206): class keeps its superclass, protocol gets NSObject, category
gets none, and a unit with no recognized declaration defaults to NSObject
with no superclass. -/
def interfaceOf : DeclFound → String × Option String
  | .classWithSuper n s => (n, some s)
  | .protocolDecl n => (n, some "NSObject")
  | .categoryDecl n => (n, none)
  | .noneFound => ("NSObject", none)

/-- Embedding of process_header_file (lines 172-234): an unreadable unit
prints a diagnostic naming the file and yields the empty triple; a read
unit yields its methods, owner and superclass.  The second component
collects the printed diagnostics. -/
def process_header_file (h : HeaderFile) :
    (List MethodInfo × Option String × Option String) × List String :=
  match h.read with
  | .readFail msg =>
    (([], none, none), ["Error processing file " ++ h.path ++ ": " ++ msg])
  | .readOk decl ms =>
    let io := interfaceOf decl
    ((extractGo io.1 [] ms, some io.1, io.2), [])

/-- Class record assembled by create_extracted_xml per unit with a
nonempty method list (lines 462-468). -/
structure ClassInfo where
  name : Option String
  superClassName : Option String
  methods : List MethodInfo
deriving DecidableEq

/-- Unit-collection loop of create_extracted_xml (lines 455-468): iterate
units in the given (sorted) order, skip paths not ending in .h, process
each unit, and keep a class record only when the unit produced methods.
Returns the class records and the collected diagnostics. -/
def create_extracted_data : List HeaderFile → List ClassInfo × List String
  | [] => ([], [])
  | f :: rest =>
    let tail := create_extracted_data rest
    if pyEndsWith f.path ".h" then
      let res := process_header_file f
      (if res.1.1.isEmpty then tail.1
       else { name := res.1.2.1, superClassName := res.1.2.2, methods := res.1.1 } :: tail.1,
       res.2 ++ tail.2)
    else tail

/-- Parameter count of a raw selector as script 1 parses it: the number of
split method parts when the selector has a colon, zero otherwise. -/
def paramCountOf (sel : String) : Nat :=
  if containsChar sel ':' then (methodPartsOf sel).length else 0

/-- Tokenizer of the (never invoked) helper parse_method_parts (line 361):
each token is a single parenthesis, a single colon, or a maximal run of
characters that are none of colon, whitespace and parentheses; whitespace
matches no alternative and is skipped.  Fuel is input length plus one. -/
def tokenizeMP : Nat → List Char → List (List Char)
  | 0, _ => []
  | _ + 1, [] => []
  | fuel + 1, c :: rest =>
    if c = '(' || c = ')' || c = ':' then [c] :: tokenizeMP fuel rest
    else if isPyWs c then tokenizeMP fuel rest
    else
      let keep := fun (x : Char) => !(x = '(' || x = ')' || x = ':') && !(isPyWs x)
      ((c :: rest).takeWhile keep) :: tokenizeMP fuel ((c :: rest).dropWhile keep)

/-- Token loop of parse_method_parts (lines 363-384): a parenthesis-depth
counter (an integer, since unbalanced input can drive it negative), with a
pair emitted at each top-level colon and tokens otherwise appended to the
pending type (inside parentheses) or pending name (outside). -/
def mpLoop : List (List Char) → Int → List Char → List Char → List (String × String)
  | [], _, _, _ => []
  | tok :: rest, inP, curName, curTy =>
    if tok = ['('] then
      if inP + 1 = 1 then mpLoop rest (inP + 1) curName curTy
      else if inP + 1 > 0 then mpLoop rest (inP + 1) curName (curTy ++ tok)
      else mpLoop rest (inP + 1) (curName ++ tok) curTy
    else if tok = [')'] then
      if inP - 1 = 0 then mpLoop rest (inP - 1) curName curTy
      else if inP - 1 > 0 then mpLoop rest (inP - 1) curName (curTy ++ tok)
      else mpLoop rest (inP - 1) (curName ++ tok) curTy
    else if tok = [':'] then
      if inP = 0 then
        (String.mk (pyStripL curName), String.mk (pyStripL curTy)) :: mpLoop rest inP [] []
      else if inP > 0 then mpLoop rest inP curName (curTy ++ tok)
      else mpLoop rest inP (curName ++ tok) curTy
    else
      if inP > 0 then mpLoop rest inP curName (curTy ++ tok)
      else mpLoop rest inP (curName ++ tok) curTy

/-- Embedding of the helper parse_method_parts (lines 354-386).  Both
scripts define this depth-tracking parser but neither ever calls it. -/
def parse_method_parts (selector : String) : List (String × String) :=
  mpLoop (tokenizeMP (selector.data.length + 1) selector.data) 0 [] []

/-- Per-method cleanup applied by the output serializer before writing
(lines 483-489 of script 1, 456-462 of script 2): the literal substrings
arg1..arg4 are deleted from displayName and selector; className, the sign
and typeEncoding are passed through unchanged. -/
def cleanMethodForOutput (m : MethodInfo) : MethodInfo :=
  { className := m.className,
    displayName :=
      deleteOcc (deleteOcc (deleteOcc (deleteOcc m.displayName "arg1") "arg2") "arg3") "arg4",
    pfx := m.pfx,
    selector :=
      deleteOcc (deleteOcc (deleteOcc (deleteOcc m.selector "arg1") "arg2") "arg3") "arg4",
    typeEncoding := m.typeEncoding }

/-! Helper lemmas shared by the claim theorems. -/

/-- Lookup success yields a value of the table. -/
theorem lookup_mem {l : List (String × String)} {k v : String}
    (h : List.lookup k l = some v) : v ∈ l.map Prod.snd := by
  induction l with
  | nil => simp [List.lookup] at h
  | cons a t ih =>
    rw [List.lookup] at h
    by_cases hk : (k == a.1) = true
    · rw [hk] at h
      simp only [Option.some.injEq] at h
      simp [← h]
    · rw [Bool.not_eq_true] at hk
      rw [hk] at h
      simp [ih h]

/-- A character that never occurs is counted zero times. -/
theorem countChar_eq_zero {s : String} {c : Char}
    (h : containsChar s c = false) : countChar s c = 0 := by
  unfold containsChar at h
  unfold countChar
  simp only [List.length_eq_zero, List.filter_eq_nil_iff]
  intro a ha
  intro hac
  have : s.data.any (fun x => x = c) = true := by
    simp only [List.any_eq_true]
    exact ⟨a, ha, hac⟩
  rw [h] at this
  exact absurd this (by simp)

/-- Boolean infix test agrees with the infix relation. -/
theorem listHasInfix_iff (p l : List Char) : listHasInfix p l = true ↔ p <:+: l := by
  induction l with
  | nil =>
    simp only [listHasInfix, List.isEmpty_iff, List.infix_nil]
  | cons c rest ih =>
    simp only [listHasInfix, Bool.or_eq_true, List.isPrefixOf_iff_prefix, ih,
      List.infix_cons_iff]

/-- Stripping yields an infix of the original character list. -/
theorem pyStripL_isInfixOf (l : List Char) : pyStripL l <:+: l := by
  unfold pyStripL
  have h1 : ((l.dropWhile isPyWs).reverse.dropWhile isPyWs).reverse <+:
      l.dropWhile isPyWs := by
    rw [← List.reverse_suffix]
    simp only [List.reverse_reverse]
    exact List.dropWhile_suffix isPyWs
  exact h1.isInfix.trans (List.dropWhile_suffix isPyWs).isInfix

/-- An occurrence inside the stripped string is an occurrence in the
original string (used contrapositively to transfer no-occurrence
hypotheses through stripping). -/
theorem subOccurs_of_strip {p s : String}
    (h : subOccurs p (pyStrip s) = true) : subOccurs p s = true := by
  unfold subOccurs pyStrip at *
  rw [listHasInfix_iff] at h ⊢
  exact h.trans (pyStripL_isInfixOf s.data)

/-- A character of the stripped string is a character of the original. -/
theorem containsChar_of_strip {s : String} {c : Char}
    (h : containsChar (pyStrip s) c = true) : containsChar s c = true := by
  unfold containsChar pyStrip at *
  simp only [List.any_eq_true] at h ⊢
  obtain ⟨x, hx, hxc⟩ := h
  exact ⟨x, (pyStripL_isInfixOf s.data).subset hx, hxc⟩

/-- Table hit of calculate_type_encoding: the override table is consulted
first, and a hit is returned verbatim for every return type text. -/
theorem calc_table_hit (rt sel enc : String)
    (h : List.lookup sel specialMethodEncodings = some enc) :
    calculate_type_encoding rt sel = enc := by
  unfold calculate_type_encoding
  rw [h]

/-! Claim theorems. -/

/-- C9: the calculate_type_encoding functions of the two conversion
scripts are extensionally equal: on every pair of inputs both return the
same encoding string.  (The two transcriptions and their three tables are
definitionally equal.) -/
theorem C9_theorem (return_type selector : String) :
    calculate_type_encoding return_type selector =
      calculate_type_encoding2 return_type selector := rfl

/-- C10: the output serializer deletes the literal substrings arg1..arg4
from displayName and selector of every emitted method, leaves className,
prefix and typeEncoding unchanged, and a selector whose genuine text
contains such a substring is emitted with that substring removed (concrete
instance: a selector with a label savearg1 is emitted as save).  The
middle conjunct shows the deletion is exactly occurrence removal: a string
without any occurrence is passed through unchanged. -/
theorem C10_theorem :
    (∀ m : MethodInfo,
      (cleanMethodForOutput m).className = m.className ∧
      (cleanMethodForOutput m).pfx = m.pfx ∧
      (cleanMethodForOutput m).typeEncoding = m.typeEncoding ∧
      (cleanMethodForOutput m).selector =
        deleteOcc (deleteOcc (deleteOcc (deleteOcc m.selector "arg1") "arg2") "arg3") "arg4" ∧
      (cleanMethodForOutput m).displayName =
        deleteOcc (deleteOcc (deleteOcc (deleteOcc m.displayName "arg1") "arg2") "arg3") "arg4") ∧
    (∀ (s pat : String), subOccurs pat s = false → deleteOcc s pat = s) ∧
    cleanMethodForOutput
        ⟨"-", "savearg1:to:", "v32@0:8@16@24", "-(void) savearg1:(id) to:(id)", "C"⟩ =
      ⟨"-", "save:to:", "v32@0:8@16@24", "-(void) save:(id) to:(id)", "C"⟩ := by
  refine ⟨fun m => ⟨rfl, rfl, rfl, rfl, rfl⟩, ?_, by decide⟩
  intro s pat h
  unfold deleteOcc
  by_cases hp : pat.data.isEmpty = true
  · simp [hp]
  · simp only [hp, if_false]
    unfold subOccurs at h
    suffices hgen : ∀ (fuel : Nat) (l : List Char), listHasInfix pat.data l = false →
        deleteOccL pat.data fuel l = l by
      rw [hgen (s.data.length + 1) s.data h]
      cases s
      rfl
    intro fuel
    induction fuel with
    | zero => intro l _; rfl
    | succ n ih =>
      intro l hl
      cases l with
      | nil => rfl
      | cons c rest =>
        unfold listHasInfix at hl
        rw [Bool.or_eq_false_iff] at hl
        unfold deleteOccL
        rw [hl.1]
        simp only [Bool.false_eq_true, if_false]
        rw [ih rest hl.2]

/-- C10 witness: the no-occurrence pass-through applied at a concrete
input with its hypothesis discharged. -/
theorem C10_witness : deleteOcc "isEqual:" "arg1" = "isEqual:" :=
  C10_theorem.2.1 "isEqual:" "arg1" (by decide)

/-- C2 counterexample: on the prototype of the claim the first script
produces selector sum:with: as claimed but the encoding is @32@0:8i16i24,
not i32@0:8i16i24: the return-code chain maps NSInteger to the object
sigil, not to the signed-integer code. -/
theorem C2_counterexample :
    (parse_method_declaration "- (NSInteger)sum:(int)a with:(int)b;" "C").map
        (fun m => (m.selector, m.typeEncoding)) =
      some ("sum:with:", "@32@0:8i16i24") ∧
    ("@32@0:8i16i24" : String) ≠ "i32@0:8i16i24" := by
  constructor
  · decide
  · decide

/-- C2 amended: on the prototype of the claim, script 1 produces selector
sum:with: and encoding @32@0:8i16i24 (frame 32 and int parameters at 16
and 24 as claimed, but return code @ since only the literal spelling int
maps to i); script 2 duplicates the first label, producing selector
sum:sum:with: and encoding @40@0:8 with no parameter tokens. -/
theorem C2_amended :
    (parse_method_declaration "- (NSInteger)sum:(int)a with:(int)b;" "C").map
        (fun m => (m.selector, m.typeEncoding)) =
      some ("sum:with:", "@32@0:8i16i24") ∧
    (parse_method_declaration2 "- (NSInteger)sum:(int)a with:(int)b;" "C").map
        (fun m => (m.selector, m.typeEncoding)) =
      some ("sum:sum:with:", "@40@0:8") := by
  constructor
  · decide
  · decide

/-- C1 counterexample: the prototype regex yields the override-table
selector conformsToProtocol:, yet script 1 emits the generically computed
encoding B24@0:8@16 instead of the table literal B24@0:8^#16 — the
parameterized path of parse_method_declaration never consults the table. -/
theorem C1_counterexample :
    List.lookup "conformsToProtocol:" specialMethodEncodings = some "B24@0:8^#16" ∧
    (parse_method_declaration "- (BOOL)conformsToProtocol:(Protocol *)p;" "C").map
        (fun m => (m.selector, m.typeEncoding)) =
      some ("conformsToProtocol:", "B24@0:8@16") ∧
    ("B24@0:8@16" : String) ≠ "B24@0:8^#16" := by
  refine ⟨by decide, by decide, by decide⟩

/-- C1 amended: calculate_type_encoding itself checks the override table
first and returns its literal encoding verbatim regardless of the return
type text, and through the zero-argument parse path every prototype whose
selector is dealloc is encoded v16@0:8 whatever its declared return type;
but parameterized prototypes in script 1 bypass calculate_type_encoding,
so parameterized table selectors need not receive the table literal. -/
theorem C1_amended :
    (∀ rt sel enc, List.lookup sel specialMethodEncodings = some enc →
      calculate_type_encoding rt sel = enc) ∧
    (∀ line pfx rt cls, protoMatch line = some (pfx, rt, "dealloc") →
      (parse_method_declaration line cls).map MethodInfo.typeEncoding = some "v16@0:8") := by
  constructor
  · exact fun rt sel enc h => calc_table_hit rt sel enc h
  · intro line pfx rt cls h
    unfold parse_method_declaration
    rw [h]
    simp only [Option.map_some']
    have h1 : subOccurs ".cxx_destruct" "dealloc" = false := by decide
    have h2 : containsChar (pyStrip "dealloc") ':' = false := by decide
    unfold parseCore
    rw [h1]
    simp only [Bool.false_eq_true, if_false]
    rw [h2]
    simp only [Bool.not_false, if_true]
    have h3 : calculate_type_encoding (pyStrip rt) (pyStrip "dealloc") = "v16@0:8" := by
      have he : pyStrip "dealloc" = "dealloc" := by decide
      rw [he]
      exact calc_table_hit (pyStrip rt) "dealloc" "v16@0:8" (by decide)
    rw [h3]

/-- C1 witness: the amended theorem applied to the return type int and a
concrete dealloc prototype. -/
theorem C1_witness :
    calculate_type_encoding "int" "dealloc" = "v16@0:8" ∧
    (parse_method_declaration "- (int) dealloc" "Foo").map MethodInfo.typeEncoding =
      some "v16@0:8" :=
  ⟨C1_amended.1 "int" "dealloc" "v16@0:8" (by decide),
   C1_amended.2 "- (int) dealloc" "-" "int" "Foo" (by decide)⟩

/-- C8: for a type spelling recognized by none of the rules — not the
boolean or instancetype rewrites, no block marker, not in the struct
registry, not a pointer spelling, not in the basic type map — the encoder
still returns a result, built from the unknown-object default sigil.
Totality itself is structural: the embedding is a total function, as the
source has no failing operation (its one indexing is guarded by the colon
test).  The selector is arbitrary apart from missing the override table. -/
theorem C8_theorem (rt sel : String)
    (h0 : rt ≠ "_Bool")
    (htab : List.lookup sel specialMethodEncodings = none)
    (hb : pyStrip rt ≠ "BOOL") (hb2 : pyStrip rt ≠ "_Bool")
    (hi : pyStrip rt ≠ "instancetype")
    (hcar : containsChar (pyStrip rt) '^' = false)
    (hcdu : subOccurs "CDUnknownBlockType" (pyStrip rt) = false)
    (hst : List.lookup (pyStrip rt) structTypes = none)
    (hptr : pyEndsWith (pyStrip rt) "*" = false)
    (htm : List.lookup (pyStrip rt) typeMap = none) :
    calculate_type_encoding rt sel =
      "@" ++ Nat.repr (16 + 8 * countChar sel ':') ++ "@0:8" := by
  have hptr2 : pyEndsWith (pyStrip rt) "**" = false := by
    by_contra hc
    rw [Bool.not_eq_false] at hc
    unfold pyEndsWith at hc hptr
    have h5 : (("*" : String).data.reverse).isPrefixOf ((pyStrip rt).data.reverse) = true := by
      rcases hrev : (pyStrip rt).data.reverse with _ | ⟨x, xs⟩
      · rw [hrev] at hc
        simp [List.isPrefixOf] at hc
      · rw [hrev] at hc
        simp only [List.isPrefixOf] at hc ⊢
        rw [Bool.and_eq_true] at hc
        simp [hc.1]
    rw [hptr] at h5
    exact absurd h5 (by simp)
  have e1 : decide (pyStrip rt = "BOOL") = false := decide_eq_false hb
  have e2 : decide (pyStrip rt = "_Bool") = false := decide_eq_false hb2
  unfold calculate_type_encoding
  rw [if_neg h0]
  simp only [htab, e1, e2, Bool.false_or, Bool.or_self, Bool.false_and, Bool.and_false,
    Bool.false_eq_true, if_false, if_neg hi, hcar, hcdu, hst, Bool.or_false]
  unfold typePfxOf
  rw [if_neg (by rw [hptr2]; simp), if_neg (by rw [hptr]; simp), htm]
  rfl

/-- C8 witness: an unregistered struct name resolves to the object sigil. -/
theorem C8_witness :
    calculate_type_encoding "MyStruct" "frame" =
      "@" ++ Nat.repr (16 + 8 * countChar "frame" ':') ++ "@0:8" :=
  C8_theorem "MyStruct" "frame" (by decide) (by decide) (by decide) (by decide)
    (by decide) (by decide) (by decide) (by decide) (by decide) (by decide)

/-- String append with the empty string on the right. -/
theorem strAppendEmpty (s : String) : s ++ "" = s := by
  cases s with
  | mk d =>
    show String.mk (d ++ ("" : String).data) = String.mk d
    simp

/-- Pointer-heuristic prefixes are nonempty and digit-free. -/
theorem typePfxOf_good (rt : String) :
    typePfxOf rt ≠ "" ∧ (typePfxOf rt).data.all (fun c => !c.isDigit) = true := by
  have hmap : ∀ x ∈ typeMap.map Prod.snd, x ≠ "" ∧
      x.data.all (fun c => !c.isDigit) = true := by decide
  unfold typePfxOf
  by_cases h1 : pyEndsWith rt "**" = true
  · rw [if_pos h1]
    dsimp only
    split_ifs <;> decide
  · rw [if_neg h1]
    by_cases h2 : pyEndsWith rt "*" = true
    · rw [if_pos h2]
      dsimp only
      split_ifs <;> decide
    · rw [if_neg h2]
      rcases hv : List.lookup rt typeMap with _ | v
      · simp only [hv, Option.getD_none]
        decide
      · simp only [hv, Option.getD_some]
        exact hmap v (lookup_mem hv)

/-- Return codes of the parameterized branch are nonempty and digit-free. -/
theorem returnCodeOf_good (a b : String) :
    returnCodeOf a b ≠ "" ∧ (returnCodeOf a b).data.all (fun c => !c.isDigit) = true := by
  unfold returnCodeOf
  split_ifs <;> decide

/-- Shape of the generic zero-parameter encoding: outside the override
table, with a block-free return spelling, the encoding is a nonempty
digit-free prefix followed by the frame size 16 and the two implicit
argument tokens. -/
theorem calc_shape (rt sel : String)
    (htab : List.lookup sel specialMethodEncodings = none)
    (hcol : containsChar sel ':' = false)
    (hcar : containsChar (pyStrip rt) '^' = false)
    (hcdu : subOccurs "CDUnknownBlockType" (pyStrip rt) = false) :
    ∃ p, calculate_type_encoding rt sel = p ++ Nat.repr 16 ++ "@0:8" ∧
      p ≠ "" ∧ p.data.all (fun c => !c.isDigit) = true := by
  have hstruct : ∀ x ∈ structTypes.map Prod.snd, x ≠ "" ∧
      x.data.all (fun c => !c.isDigit) = true := by decide
  have hc0 : countChar sel ':' = 0 := countChar_eq_zero hcol
  by_cases hB : rt = "_Bool"
  · refine ⟨"B", ?_, by decide, by decide⟩
    unfold calculate_type_encoding
    rw [if_pos hB, htab]
    simp only [hcol, Bool.and_false, Bool.false_and, Bool.false_eq_true, if_false, hc0]
    decide
  · by_cases hI : pyStrip rt = "instancetype"
    · refine ⟨"@", ?_, by decide, by decide⟩
      unfold calculate_type_encoding
      rw [if_neg hB, htab]
      simp only [hcol, Bool.and_false, Bool.false_and, Bool.false_eq_true, if_false, hc0,
        if_pos hI]
      decide
    · unfold calculate_type_encoding
      rw [if_neg hB, htab]
      simp only [hcol, Bool.and_false, Bool.false_and, Bool.false_eq_true, if_false, hc0,
        if_neg hI, hcar, hcdu, Bool.or_false, Nat.mul_zero, Nat.add_zero]
      rcases hsv : List.lookup (pyStrip rt) structTypes with _ | v
      · simp only [hsv]
        exact ⟨typePfxOf (pyStrip rt), rfl, (typePfxOf_good _).1, (typePfxOf_good _).2⟩
      · simp only [hsv]
        exact ⟨v, rfl, (hstruct v (lookup_mem hsv)).1, (hstruct v (lookup_mem hsv)).2⟩

/-- C3 amended: for every prototype accepted by the script 1 regex whose
selector is outside the override table, is not the .cxx_destruct form, and
whose return spelling carries no block marker (no caret and no
CDUnknownBlockType), the emitted encoding is a nonempty digit-free return
code immediately followed by the frame size 16 + 8 n, where n is the
number of parsed parameter segments; block-marked return spellings are
excluded because the block branch hardcodes frame sizes 24 or 32. -/
theorem C3_amended (pfx ret selRaw cls : String)
    (hcxx : subOccurs ".cxx_destruct" selRaw = false)
    (htab : List.lookup (pyStrip selRaw) specialMethodEncodings = none)
    (hcar : containsChar (pyStrip ret) '^' = false)
    (hcdu : subOccurs "CDUnknownBlockType" (pyStrip ret) = false) :
    ∃ p rest, (parseCore pfx ret selRaw cls).typeEncoding =
        p ++ Nat.repr (16 + 8 * paramCountOf (pyStrip selRaw)) ++ "@0:8" ++ rest ∧
      p ≠ "" ∧ p.data.all (fun c => !c.isDigit) = true := by
  have hcar2 : containsChar (pyStrip (pyStrip ret)) '^' = false := by
    by_contra h
    rw [Bool.not_eq_false] at h
    have h2 := containsChar_of_strip h
    rw [h2] at hcar
    simp at hcar
  have hcdu2 : subOccurs "CDUnknownBlockType" (pyStrip (pyStrip ret)) = false := by
    by_contra h
    rw [Bool.not_eq_false] at h
    have h2 := subOccurs_of_strip h
    rw [h2] at hcdu
    simp at hcdu
  unfold parseCore
  rw [hcxx]
  simp only [Bool.false_eq_true, if_false]
  by_cases hcol : containsChar (pyStrip selRaw) ':' = true
  · rw [hcol]
    simp only [Bool.not_true, Bool.false_eq_true, if_false]
    have hlen : (paramTokens (pyStrip selRaw)).length =
        (methodPartsOf (pyStrip selRaw)).length := by
      simp [paramTokens]
    have hpc : paramCountOf (pyStrip selRaw) = (methodPartsOf (pyStrip selRaw)).length := by
      unfold paramCountOf
      rw [if_pos hcol]
    refine ⟨returnCodeOf (pyStrip ret) (displayTypeOf (pyStrip ret)),
      sJoin ((paramTokens (pyStrip selRaw)).map (fun p => p.1 ++ Nat.repr p.2)), ?_,
      (returnCodeOf_good _ _).1, (returnCodeOf_good _ _).2⟩
    rw [hpc, ← hlen]
  · have hcol' : containsChar (pyStrip selRaw) ':' = false := by
      rwa [Bool.not_eq_true] at hcol
    rw [hcol']
    simp only [Bool.not_false, if_true]
    obtain ⟨p, hp, hne, hnd⟩ := calc_shape (pyStrip ret) (pyStrip selRaw) htab hcol' hcar2 hcdu2
    refine ⟨p, "", ?_, hne, hnd⟩
    have hpc : paramCountOf (pyStrip selRaw) = 0 := by
      unfold paramCountOf
      rw [if_neg (by simp [hcol'])]
    rw [hpc, strAppendEmpty]
    norm_num
    exact hp

/-- C3 witness: the amended theorem applied to a concrete one-parameter
prototype outside the override table. -/
theorem C3_witness :
    ∃ p rest, (parseCore "-" "int" "doThing:(int)x" "C").typeEncoding =
        p ++ Nat.repr (16 + 8 * paramCountOf (pyStrip "doThing:(int)x")) ++ "@0:8" ++ rest ∧
      p ≠ "" ∧ p.data.all (fun c => !c.isDigit) = true :=
  C3_amended "-" "int" "doThing:(int)x" "C" (by decide) (by decide) (by decide) (by decide)

/-- C3 counterexample: a zero-parameter prototype whose selector is not in
the override table but whose return spelling is the block alias: the block
branch hardcodes the encoding, so the emitted frame field is 32, not
16 + 8 times 0 = 16. -/
theorem C3_counterexample :
    (parse_method_declaration "- (CDUnknownBlockType)handler;" "C").map
        (fun m => (m.selector, m.typeEncoding)) = some ("handler", "v32@0:8@?16@24") ∧
    List.lookup "handler" specialMethodEncodings = none ∧
    paramCountOf "handler" = 0 ∧
    pyStartsWith "v32@0:8@?16@24" ("v" ++ Nat.repr (16 + 8 * 0)) = false ∧
    pyStartsWith "v32@0:8@?16@24" "v32" = true := by
  refine ⟨by decide, by decide, by decide, by decide, by decide⟩

/-- C4 counterexample: for the block-typed parameter spelling of the
claim, the live extraction of script 1 captures the truncated text
void (^ as the first parameter type, not the whole spelling. -/
theorem C4_counterexample :
    (findParenRuns "doThing:(void (^)(BOOL))handler").head? = some "void (^" ∧
    ("void (^" : String) ≠ "void (^)(BOOL)" := by
  refine ⟨by decide, by decide⟩

/-- C4 amended: both live parsing paths extract parameter types with
regexes that stop at the first close parenthesis, so a type spelling with
its own parentheses is truncated (script 1 captures void (^ and BOOL,
script 2 captures void (^, and the truncated spelling is then encoded as
the object sigil at offset 16); the parenthesis-depth tracker
parse_method_parts exists in both scripts but is never invoked, and it
itself pairs each label with the preceding type and drops the last
captured type, returning the pair (doThing, empty) here. -/
theorem C4_amended :
    findParenRuns "doThing:(void (^)(BOOL))handler" = ["void (^", "BOOL"] ∧
    (paramSections "doThing:(void (^)(BOOL))handler").map Prod.snd = ["void (^"] ∧
    parse_method_parts "doThing:(void (^)(BOOL))handler" = [("doThing", "")] ∧
    (parse_method_declaration "- (void)doThing:(void (^)(BOOL))handler;" "C").map
      MethodInfo.typeEncoding = some "v24@0:8@16" := by
  refine ⟨by decide, by decide, by decide, by decide⟩

/-- C6 counterexample: a two-parameter prototype outside the override
table processed by script 2: the emitted encoding is @40@0:8, which
contains no offset-16 token at all, hence not one type-offset token per
parameter. -/
theorem C6_counterexample :
    (parse_method_declaration2 "- (id)doX:(int)a withY:(int)b" "C").map
        MethodInfo.typeEncoding = some "@40@0:8" ∧
    (paramSections "doX:(int)a withY:(int)b").length = 2 ∧
    subOccurs "16" "@40@0:8" = false := by
  refine ⟨by decide, by decide, by decide⟩

/-- Offset component of a parameter entry. -/
theorem paramEntry_snd (tys : List String) (i : Nat) :
    (paramEntry tys i).2 = 16 + i * 8 := by
  unfold paramEntry
  dsimp only
  split_ifs <;> rfl

/-- Offsets of the script 1 parameter tokens, in selector order. -/
theorem paramTokens_offsets (sel : String) :
    (paramTokens sel).map Prod.snd =
      (List.range (methodPartsOf sel).length).map (fun i => 16 + i * 8) := by
  unfold paramTokens
  rw [List.mapIdx_eq_enum_map, List.map_map]
  have h1 : ∀ p ∈ (methodPartsOf sel).enum,
      (Prod.snd ∘ fun p : Nat × String =>
        (Function.uncurry fun i _ => paramEntry (findParenRuns sel) i) p) p =
      ((fun i => 16 + i * 8) ∘ Prod.fst) p := by
    intro p _
    simp only [Function.comp, Function.uncurry]
    exact paramEntry_snd _ _
  rw [List.map_congr_left h1, ← List.map_map, List.enum_map_fst]

/-- The arithmetic offsets ascend by exactly eight. -/
theorem offsets_chain (n : Nat) :
    List.Chain' (fun a b => a + 8 = b) ((List.range n).map (fun i => 16 + i * 8)) := by
  rw [List.chain'_map]
  cases n with
  | zero => simp
  | succ m =>
    rw [List.chain'_range_succ]
    intro i _
    omega

/-- C6 amended: in script 1 the claim holds — for every parameterized
prototype (override table or not: this path never consults it) the
encoding carries one type-offset token per parsed parameter in selector
order, at offsets 16 + 8 i, strictly ascending by eight; in script 2 the
encoder emits no per-parameter tokens for generic parameterized methods
(see the counterexample). -/
theorem C6_amended (pfx ret selRaw cls : String)
    (hcxx : subOccurs ".cxx_destruct" selRaw = false)
    (hcol : containsChar (pyStrip selRaw) ':' = true) :
    (paramTokens (pyStrip selRaw)).length = (methodPartsOf (pyStrip selRaw)).length ∧
    (paramTokens (pyStrip selRaw)).map Prod.snd =
      (List.range (methodPartsOf (pyStrip selRaw)).length).map (fun i => 16 + i * 8) ∧
    List.Chain' (fun a b => a + 8 = b) ((paramTokens (pyStrip selRaw)).map Prod.snd) ∧
    (parseCore pfx ret selRaw cls).typeEncoding =
      returnCodeOf (pyStrip ret) (displayTypeOf (pyStrip ret)) ++
        Nat.repr (16 + 8 * (paramTokens (pyStrip selRaw)).length) ++ "@0:8" ++
        sJoin ((paramTokens (pyStrip selRaw)).map (fun p => p.1 ++ Nat.repr p.2)) := by
  refine ⟨by simp [paramTokens], paramTokens_offsets _, ?_, ?_⟩
  · rw [paramTokens_offsets]
    exact offsets_chain _
  · unfold parseCore
    rw [hcxx]
    simp only [Bool.false_eq_true, if_false]
    rw [hcol]
    simp only [Bool.not_true, Bool.false_eq_true, if_false]

/-- C6 witness: the amended theorem applied to the two-parameter sum
prototype. -/
theorem C6_witness :
    (paramTokens (pyStrip "sum:(int)a with:(int)b")).length =
        (methodPartsOf (pyStrip "sum:(int)a with:(int)b")).length ∧
    (paramTokens (pyStrip "sum:(int)a with:(int)b")).map Prod.snd =
      (List.range (methodPartsOf (pyStrip "sum:(int)a with:(int)b")).length).map
        (fun i => 16 + i * 8) ∧
    List.Chain' (fun a b => a + 8 = b)
      ((paramTokens (pyStrip "sum:(int)a with:(int)b")).map Prod.snd) ∧
    (parseCore "-" "NSInteger" "sum:(int)a with:(int)b" "C").typeEncoding =
      returnCodeOf (pyStrip "NSInteger") (displayTypeOf (pyStrip "NSInteger")) ++
        Nat.repr (16 + 8 * (paramTokens (pyStrip "sum:(int)a with:(int)b")).length) ++
        "@0:8" ++
        sJoin ((paramTokens (pyStrip "sum:(int)a with:(int)b")).map
          (fun p => p.1 ++ Nat.repr p.2)) :=
  C6_amended "-" "NSInteger" "sum:(int)a with:(int)b" "C" (by decide) (by decide)

/-- Loop decomposition: processing a concatenation processes the first
part, then the second with the accumulated seen keys. -/
theorem extractGo_append (cls : String) (seen : List String) (l1 l2 : List RawMatch) :
    extractGo cls seen (l1 ++ l2) =
      extractGo cls seen l1 ++ extractGo cls (seenAfter seen l1) l2 := by
  induction l1 generalizing seen with
  | nil => simp [extractGo, seenAfter]
  | cons m t ih =>
    rw [List.cons_append]
    simp only [extractGo, seenAfter]
    by_cases h : seen.contains (matchKey m) = true
    · rw [if_pos h, if_pos h, if_pos h]
      exact ih seen
    · rw [if_neg h, if_neg h, if_neg h]
      rcases hp : parse_method_declaration (m.pfx ++ "(" ++ m.ret ++ ") " ++
          collapseWs (pyStrip m.sel)) cls with _ | mi
      · simp only [hp]
        exact ih (matchKey m :: seen)
      · simp only [hp, List.cons_append]
        rw [ih (matchKey m :: seen)]

/-- Seen-state decomposition over concatenation. -/
theorem seenAfter_append (seen : List String) (l1 l2 : List RawMatch) :
    seenAfter seen (l1 ++ l2) = seenAfter (seenAfter seen l1) l2 := by
  induction l1 generalizing seen with
  | nil => simp [seenAfter]
  | cons m t ih =>
    rw [List.cons_append]
    simp only [seenAfter]
    by_cases h : seen.contains (matchKey m) = true
    · rw [if_pos h, if_pos h]
      exact ih seen
    · rw [if_neg h, if_neg h]
      exact ih (matchKey m :: seen)

/-- The seen set only grows. -/
theorem seenAfter_contains_mono (seen : List String) (l : List RawMatch) (k : String)
    (h : seen.contains k = true) : (seenAfter seen l).contains k = true := by
  induction l generalizing seen with
  | nil => exact h
  | cons m t ih =>
    simp only [seenAfter]
    by_cases hm : seen.contains (matchKey m) = true
    · rw [if_pos hm]
      exact ih seen h
    · rw [if_neg hm]
      refine ih (matchKey m :: seen) ?_
      simp only [List.contains_cons, h, Bool.or_true]

/-- After a match is processed, its key is recorded. -/
theorem seenAfter_mem_self (seen : List String) (l1 : List RawMatch) (m : RawMatch) :
    (seenAfter seen (l1 ++ [m])).contains (matchKey m) = true := by
  rw [seenAfter_append]
  simp only [seenAfter]
  by_cases h : (seenAfter seen l1).contains (matchKey m) = true
  · rw [if_pos h]
    exact h
  · rw [if_neg h]
    simp only [seenAfter, List.contains_cons]
    simp

/-- A match whose key was already seen contributes nothing. -/
theorem extractGo_skip (cls : String) (seen : List String) (m : RawMatch)
    (l : List RawMatch) (h : seen.contains (matchKey m) = true) :
    extractGo cls seen (m :: l) = extractGo cls seen l := by
  simp only [extractGo]
  rw [if_pos h]

/-- C5 amended: the dedup key of the loop is the direction sign together
with the raw (whitespace-collapsed) selector text, not the parsed
selector: of two prototypes with the same key, only the first contributes
— deleting the later duplicate leaves the output unchanged — even when
their return types differ; but two prototypes with the same parsed
selector and different raw text both survive (see the counterexample). -/
theorem C5_amended (cls : String) (pre mid post : List RawMatch) (m1 m2 : RawMatch)
    (h : matchKey m1 = matchKey m2) :
    extractGo cls [] (pre ++ m1 :: (mid ++ m2 :: post)) =
      extractGo cls [] (pre ++ m1 :: (mid ++ post)) := by
  have e1 : pre ++ m1 :: (mid ++ m2 :: post) = (pre ++ [m1]) ++ (mid ++ m2 :: post) := by
    simp
  have e2 : pre ++ m1 :: (mid ++ post) = (pre ++ [m1]) ++ (mid ++ post) := by
    simp
  rw [e1, e2]
  rw [extractGo_append cls [] (pre ++ [m1]) (mid ++ m2 :: post)]
  rw [extractGo_append cls [] (pre ++ [m1]) (mid ++ post)]
  rw [extractGo_append cls (seenAfter [] (pre ++ [m1])) mid (m2 :: post)]
  rw [extractGo_append cls (seenAfter [] (pre ++ [m1])) mid post]
  have hk1 : (seenAfter [] (pre ++ [m1])).contains (matchKey m2) = true := by
    rw [← h]
    exact seenAfter_mem_self [] pre m1
  have hk2 : (seenAfter (seenAfter [] (pre ++ [m1])) mid).contains (matchKey m2) = true :=
    seenAfter_contains_mono _ mid _ hk1
  rw [extractGo_skip cls _ m2 post hk2]

/-- C5 counterexample: two syntactically distinct prototypes with the same
direction and the same parsed selector foo: both survive, so the pair
(direction, selector) of the emitted records is not unique. -/
theorem C5_counterexample :
    (extractGo "C" [] [⟨"-", "void", "foo:(int)x"⟩, ⟨"-", "void", "foo:(double)y"⟩]).map
        (fun m => (m.pfx, m.selector)) = [("-", "foo:"), ("-", "foo:")] ∧
    ¬ ([("-", "foo:"), ("-", "foo:")] : List (String × String)).Nodup := by
  refine ⟨by decide, by decide⟩

/-- C5 witness: the amended theorem applied to two identical raw
prototypes; only the first survives. -/
theorem C5_witness :
    extractGo "C" []
        ([] ++ (⟨"-", "void", "foo:(int)x"⟩ : RawMatch) ::
          ([] ++ (⟨"-", "int", "foo:(int)x"⟩ : RawMatch) :: [])) =
      extractGo "C" [] ([] ++ (⟨"-", "void", "foo:(int)x"⟩ : RawMatch) :: ([] ++ [])) :=
  C5_amended "C" [] [] [] ⟨"-", "void", "foo:(int)x"⟩ ⟨"-", "int", "foo:(int)x"⟩ (by decide)

/-- Record and diagnostic lists distribute over unit-list concatenation:
every unit is processed independently, so the batch always completes. -/
theorem create_append (l1 l2 : List HeaderFile) :
    (create_extracted_data (l1 ++ l2)).1 =
      (create_extracted_data l1).1 ++ (create_extracted_data l2).1 ∧
    (create_extracted_data (l1 ++ l2)).2 =
      (create_extracted_data l1).2 ++ (create_extracted_data l2).2 := by
  induction l1 with
  | nil => simp [create_extracted_data]
  | cons f t ih =>
    rw [List.cons_append]
    simp only [create_extracted_data]
    by_cases h : pyEndsWith f.path ".h" = true
    · rw [if_pos h, if_pos h]
      by_cases hm : (process_header_file f).1.1.isEmpty = true
      · rw [if_pos hm, if_pos hm]
        exact ⟨ih.1, by rw [ih.2, List.append_assoc]⟩
      · rw [if_neg hm, if_neg hm]
        exact ⟨by rw [ih.1, List.cons_append], by rw [ih.2, List.append_assoc]⟩
    · rw [if_neg h, if_neg h]
      exact ih

/-- C7: per-unit failure is recoverable and the batch always completes: a
unit that fails to read, or from which no methods are extracted,
contributes no class record and does not affect the records of the other
units (dropping it leaves the record list unchanged, and record lists
concatenate across any split of the unit list); a failed unit with a
header extension is reported by a diagnostic that names its path. -/
theorem C7_theorem (fs gs : List HeaderFile) (f : HeaderFile) :
    ((create_extracted_data (fs ++ gs)).1 =
      (create_extracted_data fs).1 ++ (create_extracted_data gs).1) ∧
    ((∃ msg, f.read = HeaderRead.readFail msg) ∨ (process_header_file f).1.1 = [] →
      (create_extracted_data (fs ++ f :: gs)).1 = (create_extracted_data (fs ++ gs)).1) ∧
    (∀ msg, f.read = HeaderRead.readFail msg → pyEndsWith f.path ".h" = true →
      ∃ d, d ∈ (create_extracted_data (fs ++ f :: gs)).2 ∧ subOccurs f.path d = true) := by
  refine ⟨(create_append fs gs).1, ?_, ?_⟩
  · intro hdrop
    have hemp : (process_header_file f).1.1 = [] := by
      rcases hdrop with ⟨msg, hm⟩ | he
      · unfold process_header_file
        rw [hm]
      · exact he
    have hone : (create_extracted_data [f]).1 = [] := by
      simp only [create_extracted_data]
      by_cases h : pyEndsWith f.path ".h" = true
      · rw [if_pos h]
        simp [hemp]
      · rw [if_neg h]
    have e3 : fs ++ f :: gs = fs ++ [f] ++ gs := by simp
    rw [e3, (create_append (fs ++ [f]) gs).1, (create_append fs [f]).1, hone,
      (create_append fs gs).1]
    simp
  · intro msg hm hh
    refine ⟨"Error processing file " ++ f.path ++ ": " ++ msg, ?_, ?_⟩
    · have hone : (create_extracted_data [f]).2 =
          ["Error processing file " ++ f.path ++ ": " ++ msg] := by
        simp only [create_extracted_data]
        rw [if_pos hh]
        unfold process_header_file
        rw [hm]
        simp
      have e3 : fs ++ f :: gs = fs ++ [f] ++ gs := by simp
      rw [e3, (create_append (fs ++ [f]) gs).2, (create_append fs [f]).2, hone]
      simp
    · unfold subOccurs
      rw [listHasInfix_iff]
      refine ⟨("Error processing file ").data, (": ").data ++ msg.data, ?_⟩
      simp only [String.data_append]
      simp [List.append_assoc]

/-- C7 witness: an unreadable unit followed by a readable one — the failed
unit adds no record, its diagnostic names it, and the second unit is still
processed. -/
theorem C7_witness :
    ((create_extracted_data [⟨"a.h", HeaderRead.readFail "boom"⟩,
        ⟨"b.h", HeaderRead.readOk DeclFound.noneFound [⟨"-", "void", "go"⟩]⟩]).1 =
      (create_extracted_data [⟨"b.h", HeaderRead.readOk DeclFound.noneFound
        [⟨"-", "void", "go"⟩]⟩]).1) ∧
    ∃ d, d ∈ (create_extracted_data [⟨"a.h", HeaderRead.readFail "boom"⟩,
        ⟨"b.h", HeaderRead.readOk DeclFound.noneFound [⟨"-", "void", "go"⟩]⟩]).2 ∧
      subOccurs "a.h" d = true :=
  ⟨(C7_theorem [] [⟨"b.h", HeaderRead.readOk DeclFound.noneFound [⟨"-", "void", "go"⟩]⟩]
      ⟨"a.h", HeaderRead.readFail "boom"⟩).2.1 (Or.inl ⟨"boom", rfl⟩),
   (C7_theorem [] [⟨"b.h", HeaderRead.readOk DeclFound.noneFound [⟨"-", "void", "go"⟩]⟩]
      ⟨"a.h", HeaderRead.readFail "boom"⟩).2.2 "boom" rfl (by decide)⟩
